import Mathlib

/-!
Shallow embedding of `videoplayerfromYTurl.py`: the resolver
`get_video_stream_url`, the control listener `listen_for_controls`
(line-input mode), and the orchestrator `main`, together with a model of
the external player engine taken from the specification (the engine is a
third-party collaborator and its code is not part of this repository).
-/

namespace VideoPlayer

/-- Characters removed by the Python default `str.strip()`. -/
def isPyWhitespace (c : Char) : Bool :=
  c = ' ' || c = '\t' || c = '\n' || c = '\r' || c = '\x0B' || c = '\x0C'

/-- Python `s.strip()`: drop leading and trailing whitespace. -/
def pyStrip (s : String) : String :=
  String.mk (((s.toList.dropWhile isPyWhitespace).reverse.dropWhile isPyWhitespace).reverse)

/-- Python `s.lower()` restricted to the ASCII case mapping. -/
def pyLower (s : String) : String := String.mk (s.toList.map Char.toLower)

/-- Python truthiness of a value that is either `None` or a string:
`None` and the empty string are falsy, any other string is truthy. -/
def truthy : Option String → Bool
  | none => false
  | some s => decide (s ≠ "")

/-- One entry of the `formats` list returned by the extraction library:
`fmt.get('vcodec')` and `fmt.get('url')`, each possibly absent. -/
structure Fmt where
  vcodec : Option String
  url : Option String
deriving DecidableEq, Repr

/-- The extraction result dictionary: its top-level `url` field (possibly
absent) and its `formats` list (absent modelled as the empty list, matching
`info.get('formats', [])`). -/
structure ExtractInfo where
  url : Option String
  formats : List Fmt
deriving DecidableEq, Repr

/-- Behaviour of `ydl.extract_info` on the given source: it either raises
an exception or returns an info dictionary. -/
inductive ExtractOutcome where
  | raises
  | info (i : ExtractInfo)
deriving DecidableEq, Repr

/-- The fallback loop of `get_video_stream_url` (lines 48-51):
`for fmt in formats: if fmt.get('vcodec') != 'none': stream_url = fmt.get('url'); break`.
`acc` is the value of `stream_url` before the loop. -/
def fallbackScan : List Fmt → Option String → Option String
  | [], acc => acc
  | f :: rest, acc =>
    if f.vcodec ≠ some "none" then f.url else fallbackScan rest acc

/-- `get_video_stream_url` (lines 32-55) as a function of the extraction
library's behaviour: on an exception it prints and returns `None`; otherwise
it returns `info.get('url')` if truthy, else the result of the fallback scan
over the format list. -/
def get_video_stream_url : ExtractOutcome → Option String
  | .raises => none
  | .info i => if truthy i.url then i.url else fallbackScan i.formats i.url

/-- Lifecycle states of the player handle.  Modelled from the spec: the
engine is external; §3 and §4.2 give the state set
\x7bidle, playing, paused, ended, error\x7d (§1 identifies stopped with ended). -/
inductive PlayerState where
  | idle
  | playing
  | paused
  | ended
  | error
deriving DecidableEq, Repr

/-- Modelled from the spec: `pause_toggle` (player.pause(), line 91) issues
a toggle command — "semantics are toggle, not set" (§4.2); it swaps
playing and paused and leaves the other lifecycle states unchanged. -/
def pause_toggle : PlayerState → PlayerState
  | .playing => .paused
  | .paused => .playing
  | s => s

/-- Modelled from the spec: `stop` (player.stop(), lines 72 and 87) "issues
a terminal stop command" (§4.2); the resulting state is the terminal
ended state (§1 identifies stopped with ended). -/
def player_stop (_s : PlayerState) : PlayerState := .ended

/-- The wait-loop exit test of `main` (line 131):
`state in (vlc.State.Ended, vlc.State.Error)`. -/
def isTerminalPoll : PlayerState → Bool
  | .ended => true
  | .error => true
  | _ => false

/-- The orchestrator's wait loop (lines 128-133), fuel-bounded.  `σ t` is
the state `player.get_state()` reports at poll tick `t` (ticks are one
polling interval, 1s, apart); `intr = some t` means a KeyboardInterrupt is
delivered during the sleep of tick `t`.  Returns `some (interrupted, t)`
when the loop exits at tick `t` (`interrupted` tells whether via the
`except KeyboardInterrupt` arm), `none` when the fuel runs out. -/
def wait_loop (σ : Nat → PlayerState) (intr : Option Nat) : Nat → Nat → Option (Bool × Nat)
  | 0, _ => none
  | fuel + 1, t =>
    if isTerminalPoll (σ t) then some (false, t)
    else if intr = some t then some (true, t)
    else wait_loop σ intr fuel (t + 1)

/-- Commands issued to the player handle by the control listener. -/
inductive PlayerCmd where
  | stopCmd
  | pauseToggleCmd
deriving DecidableEq, Repr

/-- The messages the program prints (identified abstractly). -/
inductive Msg where
  | stopReceived
  | pauseReceived
  | invalidCommand
  | invalidUrl
  | couldNotRetrieve
  | startingPlayback
  | initError
  | playStartFailed
  | initialStateLog
  | interruptedByUser
  | playbackEnded
  | extractError
deriving DecidableEq, Repr

/-- Observable behaviour of one run of the line-input listener loop:
the player commands issued in order, the messages printed, the number of
input lines consumed, and whether the loop exited via the quit command
(`false` means the supplied input was exhausted while still listening). -/
structure ListenResult where
  cmds : List PlayerCmd
  msgs : List Msg
  consumed : Nat
  exitedViaQuit : Bool
deriving DecidableEq, Repr

/-- The line-input (fallback) branch of `listen_for_controls`
(lines 80-93), as a function of the sequence of lines typed on stdin:
each line is stripped and lowercased; `q` issues a stop and breaks,
`p` issues a pause toggle and loops, anything else prints a rejection
message and loops. -/
def listen_for_controls : List String → ListenResult
  | [] => ⟨[], [], 0, false⟩
  | line :: rest =>
    let command := pyLower (pyStrip line)
    if command = "q" then ⟨[.stopCmd], [.stopReceived], 1, true⟩
    else if command = "p" then
      let r := listen_for_controls rest
      ⟨.pauseToggleCmd :: r.cmds, .pauseReceived :: r.msgs, r.consumed + 1, r.exitedViaQuit⟩
    else
      let r := listen_for_controls rest
      ⟨r.cmds, .invalidCommand :: r.msgs, r.consumed + 1, r.exitedViaQuit⟩

/-- The environment a run of `main` interacts with: the line typed at the
URL prompt, the extraction library's behaviour, whether `vlc.MediaPlayer`
raises, the return value of `player.play()`, the states the engine reports
to the wait loop, and when (if ever) a KeyboardInterrupt arrives during
the wait loop. -/
structure Env where
  userInput : String
  extract : ExtractOutcome
  constructRaises : Bool
  playRet : Int
  states : Nat → PlayerState
  intr : Option Nat

/-- How a run of `main` ends. -/
inductive MainOutcome where
  | emptyInput
  | resolutionFailed
  | initFailed
  | playFailed
  | done (interrupted : Bool)
  | fuelExhausted
deriving DecidableEq, Repr

/-- Observable result of a run of `main`: the outcome, the process exit
status (`none` when the fuel bound cut the wait loop short), whether
`get_video_stream_url` was invoked, whether control reached the wait
phase, and the messages printed. -/
structure MainResult where
  outcome : MainOutcome
  exitCode : Option Nat
  resolverCalled : Bool
  reachedWait : Bool
  msgs : List Msg
deriving DecidableEq, Repr

/-- `main` (lines 95-137), fuel-bounded in the wait loop.  It strips the
URL input and exits 1 if empty; resolves and exits 1 on a falsy stream
URL; exits 1 if player construction raises; exits 1 if `play()` returns
-1; otherwise enters the wait loop and, when that exits (normally or via
KeyboardInterrupt), prints the completion message and returns, so the
process exits 0. -/
def mainRun (env : Env) (fuel : Nat) : MainResult :=
  let yt_url := pyStrip env.userInput
  if yt_url.isEmpty then
    ⟨.emptyInput, some 1, false, false, [.invalidUrl]⟩
  else
    let extractMsgs : List Msg :=
      match env.extract with
      | .raises => [.extractError]
      | .info _ => []
    let stream_url := get_video_stream_url env.extract
    if truthy stream_url = false then
      ⟨.resolutionFailed, some 1, true, false, extractMsgs ++ [.couldNotRetrieve]⟩
    else if env.constructRaises then
      ⟨.initFailed, some 1, true, false, extractMsgs ++ [.startingPlayback, .initError]⟩
    else if env.playRet = -1 then
      ⟨.playFailed, some 1, true, false, extractMsgs ++ [.startingPlayback, .playStartFailed]⟩
    else
      match wait_loop env.states env.intr fuel 0 with
      | none =>
        ⟨.fuelExhausted, none, true, true, extractMsgs ++ [.startingPlayback, .initialStateLog]⟩
      | some (interrupted, _) =>
        ⟨.done interrupted, some 0, true, true,
          extractMsgs ++ [.startingPlayback, .initialStateLog] ++
            (if interrupted then [.interruptedByUser] else []) ++ [.playbackEnded]⟩

end VideoPlayer

/-! ## Helper lemmas -/

namespace VideoPlayer

/-- If the fallback scan meets only "none"-codec entries before an entry
whose codec is not "none", it yields exactly that entry's url field. -/
theorem fallbackScan_skip (pre : List Fmt) (f : Fmt) (post : List Fmt) (acc : Option String)
    (hpre : ∀ g ∈ pre, g.vcodec = some "none")
    (hf : f.vcodec ≠ some "none") :
    fallbackScan (pre ++ f :: post) acc = f.url := by
  induction pre with
  | nil => simp [fallbackScan, hf]
  | cons g rest ih =>
    have hg : g.vcodec = some "none" := hpre g (List.mem_cons_self g rest)
    simp only [List.cons_append, fallbackScan, hg, ne_eq, not_true_eq_false, if_false]
    exact ih (fun x hx => hpre x (List.mem_cons_of_mem g hx))

/-- The fallback scan returns the url of the first entry whose codec is
not "none", and the accumulator when there is no such entry. -/
theorem fallbackScan_eq_find (fs : List Fmt) (acc : Option String) :
    fallbackScan fs acc =
      match fs.find? (fun f => decide (f.vcodec ≠ some "none")) with
      | none => acc
      | some f => f.url := by
  induction fs with
  | nil => rfl
  | cons f rest ih =>
    by_cases hf : f.vcodec = some "none"
    · simp [fallbackScan, List.find?_cons, hf, ih]
    · simp [fallbackScan, List.find?_cons, hf]

/-- A poll sequence that is terminal at tick `t + fuel` makes the wait
loop exit normally at some tick no later than `t + fuel`. -/
theorem wait_loop_exits (σ : Nat → PlayerState) :
    ∀ fuel t : Nat, isTerminalPoll (σ (t + fuel)) = true →
      ∃ n, n ≤ t + fuel ∧ wait_loop σ none (fuel + 1) t = some (false, n) := by
  intro fuel
  induction fuel with
  | zero =>
    intro t h
    rw [Nat.add_zero] at h
    exact ⟨t, Nat.le_refl t, by simp [wait_loop, h]⟩
  | succ fuel ih =>
    intro t h
    by_cases ht : isTerminalPoll (σ t) = true
    · exact ⟨t, Nat.le_add_right t (fuel + 1), by simp [wait_loop, ht]⟩
    · have h' : isTerminalPoll (σ (t + 1 + fuel)) = true := by
        have harith : t + 1 + fuel = t + (fuel + 1) := by omega
        rw [harith]
        exact h
      obtain ⟨n, hn, hw⟩ := ih (t + 1) h'
      refine ⟨n, by omega, ?_⟩
      simpa [wait_loop, ht] using hw

/-- If no poll up to the interrupt tick is terminal, the wait loop exits
via the KeyboardInterrupt arm exactly at the interrupt tick. -/
theorem wait_loop_interrupt (σ : Nat → PlayerState) (t : Nat)
    (hterm : ∀ m, m ≤ t → isTerminalPoll (σ m) = false) :
    ∀ fuel u : Nat, u ≤ t → t - u < fuel →
      wait_loop σ (some t) fuel u = some (true, t) := by
  intro fuel
  induction fuel with
  | zero => intro u hu hlt; omega
  | succ fuel ih =>
    intro u hu hlt
    by_cases hut : u = t
    · subst hut
      simp [wait_loop, hterm u (Nat.le_refl u)]
    · have hu' : u < t := Nat.lt_of_le_of_ne hu hut
      have hstep : wait_loop σ (some t) (fuel + 1) u = wait_loop σ (some t) fuel (u + 1) := by
        simp [wait_loop, hterm u hu, Ne.symm hut]
      rw [hstep]
      exact ih (u + 1) (by omega) (by omega)

end VideoPlayer

/-! ## Claim theorems -/

namespace VideoPlayer

/-- The failure condition the spec claims for the resolver (claim C5):
the library raises, or there is no truthy top-level url and the format
list is empty, or there is no truthy top-level url and every format entry
has video codec "none". -/
def claimedResolveFailure : ExtractOutcome → Bool
  | .raises => true
  | .info i =>
    !truthy i.url &&
      (i.formats.isEmpty || i.formats.all (fun f => decide (f.vcodec = some "none")))

/-- The failure condition `get_video_stream_url` actually implements:
the library raises, or there is no truthy top-level url and either no
format entry has a codec other than "none" or the first such entry has
no truthy url of its own. -/
def actualResolveFailure : ExtractOutcome → Bool
  | .raises => true
  | .info i =>
    !truthy i.url &&
      (match i.formats.find? (fun f => decide (f.vcodec ≠ some "none")) with
       | none => true
       | some f => !truthy f.url)

/-- C3: when the extraction result's top-level url field holds a non-empty
string, `get_video_stream_url` returns exactly that url, and the result
does not depend on the format list (it is never inspected). -/
theorem c3_direct_url (u : String) (fs fs' : List Fmt) (hu : u ≠ "") :
    get_video_stream_url (.info ⟨some u, fs⟩) = some u ∧
      get_video_stream_url (.info ⟨some u, fs⟩) = get_video_stream_url (.info ⟨some u, fs'⟩) := by
  have ht : truthy (some u) = true := by simp [truthy, hu]
  constructor <;> simp [get_video_stream_url, ht]

/-- C3 witness: the theorem applied at a concrete extraction result whose
format list differs between the two runs. -/
theorem c3_direct_url_witness :
    get_video_stream_url
        (.info ⟨some "http://a", [⟨some "none", some "http://b"⟩]⟩) = some "http://a" ∧
      get_video_stream_url (.info ⟨some "http://a", [⟨some "none", some "http://b"⟩]⟩) =
        get_video_stream_url (.info ⟨some "http://a", []⟩) :=
  c3_direct_url "http://a" [⟨some "none", some "http://b"⟩] [] (by decide)

/-- C4: with no truthy top-level url and a format list consisting of
"none"-codec entries followed by an entry whose codec is not "none" and
whose url is `u`, `get_video_stream_url` returns `u`, skipping the
earlier "none" entries. -/
theorem c4_fallback_first_non_none (u₀ : Option String) (pre post : List Fmt) (f : Fmt)
    (u : String)
    (h₀ : truthy u₀ = false)
    (hpre : ∀ g ∈ pre, g.vcodec = some "none")
    (hf : f.vcodec ≠ some "none")
    (hu : f.url = some u) :
    get_video_stream_url (.info ⟨u₀, pre ++ f :: post⟩) = some u := by
  simp [get_video_stream_url, h₀, fallbackScan_skip pre f post u₀ hpre hf, hu]

/-- C4 witness: the theorem applied at a concrete extraction result with
one "none" entry before an "h264" entry. -/
theorem c4_fallback_first_non_none_witness :
    get_video_stream_url
        (.info ⟨none, [⟨some "none", some "http://a"⟩] ++
          (⟨some "h264", some "http://b"⟩ : Fmt) :: []⟩) = some "http://b" :=
  c4_fallback_first_non_none none [⟨some "none", some "http://a"⟩] []
    ⟨some "h264", some "http://b"⟩ "http://b" (by decide) (by decide) (by decide) (by decide)

/-- C10: the fallback scan stops at the first entry whose codec is not
"none" even when that entry has no url: the resolver then returns `none`,
although a later entry carries both a non-"none" codec and a truthy url. -/
theorem c10_scan_stops_at_urlless (u₀ : Option String) (pre post : List Fmt) (f g : Fmt)
    (h₀ : truthy u₀ = false)
    (hpre : ∀ x ∈ pre, x.vcodec = some "none")
    (hf : f.vcodec ≠ some "none")
    (hfu : f.url = none)
    (hg : g ∈ post) (hgc : g.vcodec ≠ some "none") (hgu : truthy g.url = true) :
    get_video_stream_url (.info ⟨u₀, pre ++ f :: post⟩) = none := by
  simp [get_video_stream_url, h₀, fallbackScan_skip pre f post u₀ hpre hf, hfu]

/-- C10 witness: the theorem applied at a concrete extraction result whose
first non-"none" entry lacks a url while the next entry has one. -/
theorem c10_scan_stops_at_urlless_witness :
    get_video_stream_url
        (.info ⟨none, [⟨some "none", some "http://a"⟩] ++
          (⟨some "h264", none⟩ : Fmt) :: [⟨some "vp9", some "http://c"⟩]⟩) = none :=
  c10_scan_stops_at_urlless none [⟨some "none", some "http://a"⟩]
    [⟨some "vp9", some "http://c"⟩] ⟨some "h264", none⟩ ⟨some "vp9", some "http://c"⟩
    (by decide) (by decide) (by decide) (by decide) (by decide) (by decide) (by decide)

end VideoPlayer

namespace VideoPlayer

/-- C5 counterexample: it is not true that the resolver fails exactly in
the three claimed cases.  With no top-level url and the format list
`[⟨h264, no url⟩, ⟨h264, url b⟩]` the resolver returns a falsy result,
yet the list is neither empty nor all-"none". -/
theorem c5_counterexample :
    ¬ ∀ r : ExtractOutcome,
        (truthy (get_video_stream_url r) = false ↔ claimedResolveFailure r = true) := by
  intro h
  exact absurd
    ((h (.info ⟨none, [⟨some "h264", none⟩, ⟨some "h264", some "http://b"⟩]⟩)).mp (by decide))
    (by decide)

/-- C5 amended: the resolver's result is falsy exactly when the library
raises, or there is no truthy top-level url and either no entry has a
non-"none" codec (empty or all-"none" list) or the first such entry has
no truthy url; and whenever that condition holds, `main` (past a
non-empty URL prompt) prints the resolution diagnostic and exits 1. -/
theorem c5_resolve_failure_exact (env : Env) (fuel : Nat)
    (hne : (pyStrip env.userInput).isEmpty = false) :
    (truthy (get_video_stream_url env.extract) = false ↔
        actualResolveFailure env.extract = true) ∧
      (actualResolveFailure env.extract = true →
        (mainRun env fuel).outcome = .resolutionFailed ∧
          (mainRun env fuel).exitCode = some 1 ∧
          Msg.couldNotRetrieve ∈ (mainRun env fuel).msgs) := by
  have hiff :
      truthy (get_video_stream_url env.extract) = false ↔
        actualResolveFailure env.extract = true := by
    cases hx : env.extract with
    | raises => simp [get_video_stream_url, actualResolveFailure, truthy]
    | info i =>
      cases hu : truthy i.url with
      | true => simp [get_video_stream_url, actualResolveFailure, hu]
      | false =>
        simp only [get_video_stream_url, actualResolveFailure, hu, Bool.false_eq_true,
          if_false, Bool.not_false, Bool.true_and, fallbackScan_eq_find]
        cases hfind : i.formats.find? (fun f => decide (f.vcodec ≠ some "none")) with
        | none => simp [hu]
        | some f => simp
  refine ⟨hiff, fun hfail => ?_⟩
  have hres : truthy (get_video_stream_url env.extract) = false := hiff.mpr hfail
  cases hx : env.extract with
  | raises =>
    rw [hx] at hres
    simp [mainRun, hne, hx, hres]
  | info i =>
    rw [hx] at hres
    simp [mainRun, hne, hx, hres]

/-- C5 witness: the amended theorem applied at a run whose extraction
raises; both hypotheses are discharged concretely. -/
theorem c5_resolve_failure_exact_witness :
    ((truthy (get_video_stream_url ExtractOutcome.raises) = false ↔
        actualResolveFailure ExtractOutcome.raises = true) ∧
      (actualResolveFailure ExtractOutcome.raises = true →
        (mainRun ⟨"u", .raises, false, 0, fun _ => PlayerState.idle, none⟩ 0).outcome =
            .resolutionFailed ∧
          (mainRun ⟨"u", .raises, false, 0, fun _ => PlayerState.idle, none⟩ 0).exitCode =
            some 1 ∧
          Msg.couldNotRetrieve ∈
            (mainRun ⟨"u", .raises, false, 0, fun _ => PlayerState.idle, none⟩ 0).msgs)) :=
  c5_resolve_failure_exact ⟨"u", .raises, false, 0, fun _ => PlayerState.idle, none⟩ 0
    (by decide)

/-- C2: when the line typed at the URL prompt is empty or all whitespace,
`main` exits with status 1 at the empty-input check and the resolver is
never invoked. -/
theorem c2_whitespace_input_exits (env : Env) (fuel : Nat)
    (h : env.userInput.toList.all isPyWhitespace = true) :
    (mainRun env fuel).exitCode = some 1 ∧
      (mainRun env fuel).resolverCalled = false ∧
      (mainRun env fuel).outcome = .emptyInput := by
  have hdrop : env.userInput.data.dropWhile isPyWhitespace = [] :=
    List.dropWhile_eq_nil_iff.mpr (by simpa [String.toList, List.all_eq_true] using h)
  have hempty : (pyStrip env.userInput).isEmpty = true := by
    simp only [pyStrip, String.toList, hdrop, List.reverse_nil, List.dropWhile_nil]
    decide
  simp [mainRun, hempty]

/-- C2 witness: the theorem applied at a run whose URL input is a space
and a tab. -/
theorem c2_whitespace_input_exits_witness :
    (mainRun ⟨" \t", .raises, false, 0, fun _ => PlayerState.idle, none⟩ 0).exitCode =
        some 1 ∧
      (mainRun ⟨" \t", .raises, false, 0, fun _ => PlayerState.idle, none⟩ 0).resolverCalled =
        false ∧
      (mainRun ⟨" \t", .raises, false, 0, fun _ => PlayerState.idle, none⟩ 0).outcome =
        .emptyInput :=
  c2_whitespace_input_exits ⟨" \t", .raises, false, 0, fun _ => PlayerState.idle, none⟩ 0
    (by decide)

end VideoPlayer

namespace VideoPlayer

/-- C9: past a non-empty URL and a successful resolution, `main` fails
fatally in exactly two cases — player construction raises (diagnostic,
exit 1) or `play()` returns -1 (diagnostic, exit 1) — and in every other
case execution reaches the wait phase. -/
theorem c9_start_failure_cases (env : Env) (fuel : Nat)
    (hne : (pyStrip env.userInput).isEmpty = false)
    (hres : truthy (get_video_stream_url env.extract) = true) :
    (env.constructRaises = true →
        (mainRun env fuel).outcome = .initFailed ∧
          (mainRun env fuel).exitCode = some 1 ∧
          Msg.initError ∈ (mainRun env fuel).msgs) ∧
      (env.constructRaises = false → env.playRet = -1 →
        (mainRun env fuel).outcome = .playFailed ∧
          (mainRun env fuel).exitCode = some 1 ∧
          Msg.playStartFailed ∈ (mainRun env fuel).msgs) ∧
      (env.constructRaises = false → ¬ env.playRet = -1 →
        (mainRun env fuel).reachedWait = true) := by
  refine ⟨fun hc => ?_, fun hc hp => ?_, fun hc hp => ?_⟩
  · simp [mainRun, hne, hres, hc]
  · simp [mainRun, hne, hres, hc, hp]
  · simp only [mainRun, hne, Bool.false_eq_true, if_false, hres, Bool.true_eq_false, hc, hp,
      if_true]
    cases hw : wait_loop env.states env.intr fuel 0 with
    | none => simp [hw]
    | some p => cases p with | mk b n => simp [hw]

/-- C9 witness: the theorem applied at a run whose player construction
raises; the first arm gives the init-failure outcome. -/
theorem c9_start_failure_cases_witness :
    ((true = true →
        (mainRun ⟨"u", .info ⟨some "s", []⟩, true, 0, fun _ => PlayerState.playing, none⟩
              7).outcome = .initFailed ∧
          (mainRun ⟨"u", .info ⟨some "s", []⟩, true, 0, fun _ => PlayerState.playing, none⟩
              7).exitCode = some 1 ∧
          Msg.initError ∈
            (mainRun ⟨"u", .info ⟨some "s", []⟩, true, 0, fun _ => PlayerState.playing, none⟩
              7).msgs) ∧
      (true = false → (0 : Int) = -1 →
        (mainRun ⟨"u", .info ⟨some "s", []⟩, true, 0, fun _ => PlayerState.playing, none⟩
              7).outcome = .playFailed ∧
          (mainRun ⟨"u", .info ⟨some "s", []⟩, true, 0, fun _ => PlayerState.playing, none⟩
              7).exitCode = some 1 ∧
          Msg.playStartFailed ∈
            (mainRun ⟨"u", .info ⟨some "s", []⟩, true, 0, fun _ => PlayerState.playing, none⟩
              7).msgs) ∧
      (true = false → ¬ (0 : Int) = -1 →
        (mainRun ⟨"u", .info ⟨some "s", []⟩, true, 0, fun _ => PlayerState.playing, none⟩
              7).reachedWait = true)) :=
  c9_start_failure_cases
    ⟨"u", .info ⟨some "s", []⟩, true, 0, fun _ => PlayerState.playing, none⟩ 7
    (by decide) (by decide)

/-- C1: `stop` sends the player to a state the wait-loop test accepts as
terminal, and whenever every poll from tick `k` on reports the post-stop
state, the wait loop exits at some tick no later than `k` — within one
polling interval of the transition. -/
theorem c1_stop_terminal_and_loop_exits (σ : Nat → PlayerState) (k : Nat) (s₀ : PlayerState)
    (hstop : ∀ m, k ≤ m → σ m = player_stop s₀) :
    isTerminalPoll (player_stop s₀) = true ∧
      ∃ n, n ≤ k ∧ wait_loop σ none (k + 1) 0 = some (false, n) := by
  have hterm : isTerminalPoll (player_stop s₀) = true := rfl
  have h0 : isTerminalPoll (σ (0 + k)) = true := by
    rw [hstop (0 + k) (by omega)]
    exact hterm
  obtain ⟨n, hn, hw⟩ := wait_loop_exits σ k 0 h0
  exact ⟨hterm, n, by omega, hw⟩

/-- C1 witness: the theorem applied to a run where stop is issued before
the first poll, so every poll reports the post-stop state. -/
theorem c1_stop_terminal_and_loop_exits_witness :
    isTerminalPoll (player_stop PlayerState.playing) = true ∧
      ∃ n, n ≤ 0 ∧
        wait_loop (fun _ => PlayerState.ended) none (0 + 1) 0 = some (false, n) :=
  c1_stop_terminal_and_loop_exits (fun _ => PlayerState.ended) 0 PlayerState.playing
    (fun _ _ => rfl)

/-- C6: a KeyboardInterrupt delivered during the wait loop (no earlier
poll being terminal, and the fuel covering the interrupt tick) makes the
run finish as a normal completion: the loop exits via the interrupt arm,
the completion message is printed, and the process exit status is 0. -/
theorem c6_interrupt_normal_completion (env : Env) (fuel t : Nat)
    (hne : (pyStrip env.userInput).isEmpty = false)
    (hres : truthy (get_video_stream_url env.extract) = true)
    (hc : env.constructRaises = false)
    (hp : ¬ env.playRet = -1)
    (hintr : env.intr = some t)
    (hterm : ∀ m, m ≤ t → isTerminalPoll (env.states m) = false)
    (hfuel : t < fuel) :
    (mainRun env fuel).outcome = .done true ∧
      (mainRun env fuel).exitCode = some 0 ∧
      Msg.interruptedByUser ∈ (mainRun env fuel).msgs ∧
      Msg.playbackEnded ∈ (mainRun env fuel).msgs := by
  have hw : wait_loop env.states env.intr fuel 0 = some (true, t) := by
    rw [hintr]
    exact wait_loop_interrupt env.states t hterm fuel 0 (Nat.zero_le t) (by omega)
  cases hx : env.extract with
  | raises => rw [hx] at hres; simp [get_video_stream_url, truthy] at hres
  | info i =>
    rw [hx] at hres
    simp [mainRun, hne, hres, hc, hp, hw, hx]

/-- C6 witness: the theorem applied to a run interrupted at the first
poll tick while the player still reports playing. -/
theorem c6_interrupt_normal_completion_witness :
    (mainRun ⟨"u", .info ⟨some "s", []⟩, false, 0, fun _ => PlayerState.playing, some 0⟩
          3).outcome = .done true ∧
      (mainRun ⟨"u", .info ⟨some "s", []⟩, false, 0, fun _ => PlayerState.playing, some 0⟩
          3).exitCode = some 0 ∧
      Msg.interruptedByUser ∈
        (mainRun ⟨"u", .info ⟨some "s", []⟩, false, 0, fun _ => PlayerState.playing, some 0⟩
          3).msgs ∧
      Msg.playbackEnded ∈
        (mainRun ⟨"u", .info ⟨some "s", []⟩, false, 0, fun _ => PlayerState.playing, some 0⟩
          3).msgs :=
  c6_interrupt_normal_completion
    ⟨"u", .info ⟨some "s", []⟩, false, 0, fun _ => PlayerState.playing, some 0⟩ 3 0
    (by decide) (by decide) rfl (by decide) rfl (fun _ _ => rfl) (by decide)

/-- C7: in line-input mode the input lines p, x, q issue exactly one
pause toggle and one stop, in that order; the unrecognized x prints only
the rejection message and issues no command; all three lines are
consumed and the loop exits via the quit command. -/
theorem c7_line_mode_scenario :
    listen_for_controls ["p", "x", "q"] =
      ⟨[.pauseToggleCmd, .stopCmd], [.pauseReceived, .invalidCommand, .stopReceived], 3,
        true⟩ := by
  decide

/-- C8: the spec-modelled pause toggle is an involution: applying it
twice returns every playback state to its prior value. -/
theorem c8_pause_toggle_involutive (s : PlayerState) :
    pause_toggle (pause_toggle s) = s := by
  cases s <;> rfl

/-- C8 witness: the theorem applied at the playing state. -/
theorem c8_pause_toggle_involutive_witness :
    pause_toggle (pause_toggle PlayerState.playing) = PlayerState.playing :=
  c8_pause_toggle_involutive PlayerState.playing

end VideoPlayer
